import Mathlib

/-!
Verification development for the fund-analysis core
(`src/analysis/performance.py`, `src/analysis/holding_simulation.py`,
`config.py`).

A value time series is embedded as a `List (ℤ × α)` of (date, value)
pairs, the date being a day number; the repository's pandas series have
unique ascending `DatetimeIndex` dates.  Pure numeric code is translated
over an arbitrary `LinearOrderedField` so the same definitions serve both
the rational witnesses and the real-valued functions that need `rpow` and
`sqrt`.  Pandas calendar binning (the `resample` rule) is an external
library facility; it is modelled by an explicit `bin : ℤ → ℤ` map sending
each date to its period label, which the repository configures through
rule strings produced by `get_resample_rule`.
-/

namespace FundSpec

section Generic

variable {α : Type} [LinearOrderedField α]

/-- First date of a series (`series.index[0]`); 0 on an empty series. -/
def firstDate (nav : List (ℤ × α)) : ℤ :=
  match nav with
  | [] => 0
  | p :: _ => p.1

/-- Last date of a series (`series.index[-1]`); 0 on an empty series. -/
def lastDate (nav : List (ℤ × α)) : ℤ :=
  match nav with
  | [] => 0
  | [p] => p.1
  | _ :: q :: rest => lastDate (q :: rest)

/-- First value of a series (`series.iloc[0]`); 0 on an empty series. -/
def firstV (nav : List (ℤ × α)) : α :=
  match nav with
  | [] => 0
  | p :: _ => p.2

/-- Last value of a series (`series.iloc[-1]`); 0 on an empty series. -/
def lastV (nav : List (ℤ × α)) : α :=
  match nav with
  | [] => 0
  | [p] => p.2
  | _ :: q :: rest => lastV (q :: rest)

/-- Last element of a plain value list; 0 on an empty list. -/
def lastOf (xs : List α) : α :=
  match xs with
  | [] => 0
  | [v] => v
  | _ :: w :: rest => lastOf (w :: rest)

/-- `series.pct_change().dropna()`: simple period-over-period returns,
keeping each return at the date of the later observation and dropping the
undefined first entry. -/
def pctChange (nav : List (ℤ × α)) : List (ℤ × α) :=
  match nav with
  | [] => []
  | [_] => []
  | p :: q :: rest => (q.1, q.2 / p.2 - 1) :: pctChange (q :: rest)

/-- Insert one dated point into a date-sorted list, keeping date order. -/
def insertByDate (p : ℤ × α) : List (ℤ × α) → List (ℤ × α)
  | [] => [p]
  | q :: qs => if p.1 ≤ q.1 then p :: q :: qs else q :: insertByDate p qs

/-- `series.sort_index()`: sort the series by date. -/
def sortByDate (nav : List (ℤ × α)) : List (ℤ × α) :=
  nav.foldr insertByDate []

/-- Running maximum started from `c` (`series.cummax()` after the head). -/
def cummaxFrom (c : α) : List α → List α
  | [] => [c]
  | v :: vs => c :: cummaxFrom (max c v) vs

/-- `series.cummax()`: running maximum of a value list. -/
def cummax : List α → List α
  | [] => []
  | v :: vs => cummaxFrom v vs

/-- `series.idxmin()` together with the minimum: the first (date, value)
pair attaining the minimal value, `none` on an empty list. -/
def idxminP (l : List (ℤ × α)) : Option (ℤ × α) :=
  match l with
  | [] => none
  | p :: ps => some (ps.foldl (fun best q => if q.2 < best.2 then q else best) p)

/-- `series.idxmax()` together with the maximum: the first (date, value)
pair attaining the maximal value, `none` on an empty list. -/
def idxmaxP (l : List (ℤ × α)) : Option (ℤ × α) :=
  match l with
  | [] => none
  | p :: ps => some (ps.foldl (fun best q => if best.2 < q.2 then q else best) p)

/-- `PerformanceAnalyzer.calculate_total_return`:
`iloc[-1]/iloc[0] - 1`, and 0 when the series has fewer than 2 points. -/
def calculate_total_return (nav : List (ℤ × α)) : α :=
  if nav.length < 2 then 0
  else lastV nav / firstV nav - 1

/-- `PerformanceAnalyzer.calculate_max_drawdown`: drawdown against the
running maximum, minimized; the end date is the first argmin of the
drawdown, the start date the first argmax of the series restricted to
dates at most the end date (`nav_series[:end_date]`), falling back to the
first index when that restriction is empty.  Returns `(0, none, none)`
when the series has fewer than 2 points. -/
def calculate_max_drawdown (nav : List (ℤ × α)) : α × Option ℤ × Option ℤ :=
  if nav.length < 2 then (0, none, none)
  else
    let dd := List.zipWith (fun p m => (p.1, (p.2 - m) / m)) nav (cummax (nav.map Prod.snd))
    match idxminP dd with
    | none => (0, none, none)
    | some e =>
      let before := nav.filter (fun p => p.1 ≤ e.1)
      match idxmaxP before with
      | none => (e.2, some (firstDate nav), some e.1)
      | some s => (e.2, some s.1, some e.1)

/-- Arithmetic mean of a value list (0 on an empty list). -/
def mean (xs : List α) : α := xs.sum / xs.length

/-- Sample variance with one delta degree of freedom, the square of the
pandas `Series.std()` default; 0 when fewer than 2 observations. -/
def sampleVar (xs : List α) : α :=
  if xs.length < 2 then 0
  else ((xs.map (fun x => (x - mean xs) ^ 2)).sum) / ((xs.length : α) - 1)

/-- Group a date-sorted list of (date, value) pairs by the period label
`bin date`, in order of appearance, collecting the values of each period
(the grouping step of `Series.resample(rule)`). -/
def groupByBin (bin : ℤ → ℤ) : List (ℤ × α) → List (ℤ × List α)
  | [] => []
  | p :: ps =>
    match groupByBin bin ps with
    | [] => [(bin p.1, [p.2])]
    | (b, vs) :: gs =>
      if bin p.1 = b then (b, p.2 :: vs) :: gs
      else (bin p.1, [p.2]) :: (b, vs) :: gs

/-- Cumulative product reconstruction `(1 + returns).cumprod() * acc`:
each period return multiplies the running value, which is recorded at the
period's label date. -/
def cumprodFrom (acc : α) : List (ℤ × α) → List (ℤ × α)
  | [] => []
  | p :: ps => (p.1, acc * (1 + p.2)) :: cumprodFrom (acc * (1 + p.2)) ps

/-- The compounded per-period return series of `_resample_data` under
method `cum_return`: group the simple returns by period and compound each
group via the product of one plus each return, minus 1. -/
def periodReturns (bin : ℤ → ℤ) (returns : List (ℤ × α)) : List (ℤ × α) :=
  (groupByBin bin returns).map
    (fun g => (g.1, (g.2.map (fun x => 1 + x)).prod - 1))

/-- `_resample_data`: identity at the daily frequency (after sorting);
otherwise either keep the last value per period (method `last`) or
compound the per-period simple returns and rebuild a value series as a
cumulative product anchored at the first original value (method
`cum_return`).  An empty input, or an empty return/period-return series
under `cum_return`, yields an empty series. -/
def resample_data (bin : ℤ → ℤ) (nav : List (ℤ × α))
    (frequency : String) (method : String) : List (ℤ × α) :=
  match nav with
  | [] => nav
  | _ :: _ =>
    let sorted := sortByDate nav
    if frequency = "daily" then sorted
    else if method = "cum_return" then
      match pctChange sorted with
      | [] => []
      | r :: rs =>
        match periodReturns bin (r :: rs) with
        | [] => []
        | q :: qs => cumprodFrom (firstV sorted) (q :: qs)
    else (groupByBin bin sorted).map (fun g => (g.1, lastOf g.2))

end Generic

/-- `FREQUENCY_TRADING_DAYS.get(frequency, default)`: periods per year
for each recognized frequency tag, the caller's default otherwise. -/
def FREQUENCY_TRADING_DAYS (frequency : String) (dflt : ℕ) : ℕ :=
  if frequency = "daily" then 252
  else if frequency = "weekly" then 52
  else if frequency = "monthly" then 12
  else if frequency = "quarterly" then 4
  else if frequency = "yearly" then 1
  else dflt

/-- `DEFAULT_RETURN_FREQUENCY` in `performance.py`. -/
def DEFAULT_RETURN_FREQUENCY : String := "daily"

/-- `DEFAULT_RISK_FREQUENCY` in `performance.py`. -/
def DEFAULT_RISK_FREQUENCY : String := "weekly"

/-- `_normalize_week_end_day`: canonical three-letter weekday code, with
`FRI` for a missing value and upper-cased passthrough otherwise. -/
def normalize_week_end_day (w : String) : String :=
  if w = "" then "FRI"
  else
    let key := w.trim.toLower
    if key = "monday" ∨ key = "mon" ∨ key = "1" then "MON"
    else if key = "tuesday" ∨ key = "tue" ∨ key = "2" then "TUE"
    else if key = "wednesday" ∨ key = "wed" ∨ key = "3" then "WED"
    else if key = "thursday" ∨ key = "thu" ∨ key = "4" then "THU"
    else if key = "friday" ∨ key = "fri" ∨ key = "5" then "FRI"
    else if key = "saturday" ∨ key = "sat" ∨ key = "6" then "SAT"
    else if key = "sunday" ∨ key = "sun" ∨ key = "7" then "SUN"
    else w.trim.toUpper

/-- `_month_code`: three-letter month code for 1..12, `DEC` otherwise
(the integer branch of the source; the source's string branch is not
exercised by `_get_resample_rule`, whose month arguments are ints). -/
def month_code (month : ℤ) : String :=
  if month = 1 then "JAN" else if month = 2 then "FEB"
  else if month = 3 then "MAR" else if month = 4 then "APR"
  else if month = 5 then "MAY" else if month = 6 then "JUN"
  else if month = 7 then "JUL" else if month = 8 then "AUG"
  else if month = 9 then "SEP" else if month = 10 then "OCT"
  else if month = 11 then "NOV" else if month = 12 then "DEC"
  else "DEC"

/-- `_normalize_month_rule`: canonical pandas period-end rule for the
month/quarter/year rule strings, passing unknown codes through. -/
def normalize_month_rule (r : String) : String :=
  if r = "" then "ME"
  else
    let rule := r.trim.toUpper
    if rule = "M" ∨ rule = "ME" then "ME"
    else if rule = "BM" ∨ rule = "BME" then "BME"
    else if rule = "Q" ∨ rule = "QE" then "QE"
    else if rule = "A" ∨ rule = "Y" ∨ rule = "YE" then "YE"
    else rule

/-- `_get_resample_rule`: the pandas rule string for a frequency tag; an
explicit `frequency_rules` mapping wins, the five known tags produce
their configured rules, and any other tag falls through to `'D'`. -/
def get_resample_rule (frequency : String) (week_end_day : String)
    (month_end_rule : String) (quarter_end_month : ℤ) (year_end_month : ℤ)
    (frequency_rules : List (String × String)) : String :=
  match frequency_rules.lookup frequency with
  | some r => r
  | none =>
    if frequency = "weekly" then "W-" ++ normalize_week_end_day week_end_day
    else if frequency = "monthly" then normalize_month_rule month_end_rule
    else if frequency = "quarterly" then "Q-" ++ month_code quarter_end_month
    else if frequency = "yearly" then "A-" ++ month_code year_end_month
    else "D"

/-- `PerformanceAnalyzer.calculate_annual_return`: compound the total
return to an annual rate; at the daily frequency the year count is
elapsed calendar days over 365.0, at every other frequency it is
`(period_count - 1) / annual_factor`; 0 when the series has fewer than 2
points, the elapsed days are not positive, or the year count is not
positive. -/
noncomputable def calculate_annual_return (tradingDays : ℕ)
    (nav : List (ℤ × ℝ)) (frequency : String) : ℝ :=
  if nav.length < 2 then 0
  else
    let total_return := calculate_total_return nav
    let days : ℤ := lastDate nav - firstDate nav
    if days ≤ 0 then 0
    else
      let annual_factor := FREQUENCY_TRADING_DAYS frequency tradingDays
      let years : ℝ :=
        if frequency = "daily" then (days : ℝ) / 365
        else ((nav.length : ℝ) - 1) / (annual_factor : ℝ)
      if years ≤ 0 then 0
      else (1 + total_return) ^ (1 / years) - 1

/-- `PerformanceAnalyzer.calculate_annual_volatility`: sample standard
deviation of the simple period returns scaled by the square root of the
frequency's annualization factor; 0 with fewer than 2 points or fewer
than 2 returns. -/
noncomputable def calculate_annual_volatility (tradingDays : ℕ)
    (nav : List (ℤ × ℝ)) (frequency : String) : ℝ :=
  if nav.length < 2 then 0
  else
    let returns := (pctChange nav).map Prod.snd
    if returns.length < 2 then 0
    else
      let annual_factor := FREQUENCY_TRADING_DAYS frequency tradingDays
      Real.sqrt (sampleVar returns) * Real.sqrt (annual_factor : ℝ)

/-- `PerformanceAnalyzer.calculate_sharpe_ratio`: excess annual return
over annual volatility, short-circuited to 0 when the volatility is 0 or
the series has fewer than 2 points. -/
noncomputable def calculate_sharpe (risk_free_rate : ℝ) (tradingDays : ℕ)
    (nav : List (ℤ × ℝ)) (frequency : String) : ℝ :=
  if nav.length < 2 then 0
  else
    let annual_return := calculate_annual_return tradingDays nav frequency
    let annual_volatility := calculate_annual_volatility tradingDays nav frequency
    if annual_volatility = 0 then 0
    else (annual_return - risk_free_rate) / annual_volatility

/-- `PerformanceAnalyzer.calculate_calmar_ratio`: annual return over the
absolute max drawdown, short-circuited to 0 when the drawdown is 0 or the
series has fewer than 2 points. -/
noncomputable def calculate_calmar (tradingDays : ℕ)
    (nav : List (ℤ × ℝ)) (frequency : String) : ℝ :=
  if nav.length < 2 then 0
  else
    let annual_return := calculate_annual_return tradingDays nav frequency
    let max_drawdown := (calculate_max_drawdown nav).1
    if max_drawdown = 0 then 0
    else annual_return / |max_drawdown|

/-- One frequency's metric block, as produced by
`PerformanceAnalyzer._calculate_metrics_for_frequency`. -/
structure FreqMetrics where
  total_return : ℝ
  annual_return : ℝ
  annual_volatility : ℝ
  max_drawdown : ℝ
  max_drawdown_start : Option ℤ
  max_drawdown_end : Option ℤ
  sharpe : ℝ
  calmar : ℝ
  start_date : ℤ
  end_date : ℤ
  periods : ℕ

/-- `PerformanceAnalyzer._calculate_metrics_for_frequency`: resample the
series at the requested frequency (method `last`, the source default) and
compute the full metric block on the resampled series; `none` when fewer
than 2 resampled points remain. -/
noncomputable def calculate_metrics_for_frequency (risk_free_rate : ℝ)
    (tradingDays : ℕ) (bin : ℤ → ℤ) (nav : List (ℤ × ℝ))
    (frequency : String) : Option FreqMetrics :=
  let resampled := resample_data bin nav frequency "last"
  if resampled.length < 2 then none
  else some
    { total_return := calculate_total_return resampled
      annual_return := calculate_annual_return tradingDays resampled frequency
      annual_volatility := calculate_annual_volatility tradingDays resampled frequency
      max_drawdown := (calculate_max_drawdown resampled).1
      max_drawdown_start := (calculate_max_drawdown resampled).2.1
      max_drawdown_end := (calculate_max_drawdown resampled).2.2
      sharpe := calculate_sharpe risk_free_rate tradingDays resampled frequency
      calmar := calculate_calmar tradingDays resampled frequency
      start_date := firstDate resampled
      end_date := lastDate resampled
      periods := resampled.length }

/-- The merged performance record assembled by
`PerformanceAnalyzer.analyze_fund_performance` in mixed-frequency mode. -/
structure PerfRecord where
  return_frequency : String
  risk_frequency : String
  total_return : ℝ
  annual_return : ℝ
  annual_volatility : ℝ
  max_drawdown : ℝ
  max_drawdown_start : Option ℤ
  max_drawdown_end : Option ℤ
  sharpe : ℝ
  calmar : ℝ
  start_date : ℤ
  end_date : ℤ
  periods : ℕ

/-- `PerformanceAnalyzer.analyze_fund_performance`, mixed-frequency path
(no single forced frequency): compute the metric block at the return
frequency and at the risk frequency, and merge — the return-class fields
(total and annual return, plus the date range and sample count) from the
former, the risk-class fields (volatility, max drawdown with its dates,
sharpe, calmar) from the latter.  Empty (`none`) when the raw series has
fewer than 2 points or either block cannot be computed; `bins` maps a
frequency tag to its period-label map. -/
noncomputable def analyze_fund_performance_mixed (risk_free_rate : ℝ)
    (tradingDays : ℕ) (bins : String → ℤ → ℤ) (nav : List (ℤ × ℝ))
    (return_frequency risk_frequency : String) : Option PerfRecord :=
  if nav.length < 2 then none
  else
    match calculate_metrics_for_frequency risk_free_rate tradingDays
            (bins return_frequency) nav return_frequency,
          calculate_metrics_for_frequency risk_free_rate tradingDays
            (bins risk_frequency) nav risk_frequency with
    | some rm, some km => some
        { return_frequency := return_frequency
          risk_frequency := risk_frequency
          total_return := rm.total_return
          annual_return := rm.annual_return
          annual_volatility := km.annual_volatility
          max_drawdown := km.max_drawdown
          max_drawdown_start := km.max_drawdown_start
          max_drawdown_end := km.max_drawdown_end
          sharpe := km.sharpe
          calmar := km.calmar
          start_date := rm.start_date
          end_date := rm.end_date
          periods := rm.periods }
    | _, _ => none

/-- One row of `HoldingSimulation.simulate_holding_period`. -/
structure SimRow where
  buy_date : ℤ
  sell_date : ℤ
  holding_days : ℕ
  holding_return : ℝ
  annual_return : ℝ
  annual_volatility : ℝ
  max_drawdown : ℝ
  sharpe : ℝ
  days_held : ℤ

/-- The data-sufficiency gate of `simulate_holding_period`:
`holding_days + min_data_points` points are required, relaxed to
`holding_days + 5` when the holding length is exactly 360. -/
def requiredPoints (holding_days min_data_points : ℕ) : ℕ :=
  if holding_days = 360 then holding_days + 5
  else holding_days + min_data_points

/-- The row built for start index `i` inside
`HoldingSimulation.simulate_holding_period`: the window is
`nav_series.iloc[i : i + holding_days + 1]`; the holding return is
last over first minus 1; the annualized return compounds it by
`trading_days / days_held` over the actual elapsed calendar days (0 when
those are not positive); volatility is the window's sample return
standard deviation annualized, and the sharpe subtracts the risk-free
rate prorated by `holding_days / trading_days` — both 0 when the window
has fewer than 2 returns or the volatility is not positive; the max
drawdown is computed on the window alone. -/
noncomputable def simRow (risk_free_rate : ℝ) (tradingDays : ℕ)
    (nav : List (ℤ × ℝ)) (holding_days i : ℕ) : SimRow :=
  let dates := nav.map Prod.fst
  let buy_date := dates.getD i 0
  let sell_date := dates.getD (i + holding_days) 0
  let window := (nav.drop i).take (holding_days + 1)
  let holding_return := lastV window / firstV window - 1
  let max_drawdown := (calculate_max_drawdown window).1
  let days_held := sell_date - buy_date
  let annual_return : ℝ :=
    if 0 < days_held then
      (1 + holding_return) ^ ((tradingDays : ℝ) / (days_held : ℝ)) - 1
    else 0
  let holding_returns := (pctChange window).map Prod.snd
  let vol_sharpe : ℝ × ℝ :=
    if 1 < holding_returns.length then
      let annual_vol := Real.sqrt (sampleVar holding_returns) * Real.sqrt (tradingDays : ℝ)
      if 0 < annual_vol then
        (annual_vol,
         (annual_return - risk_free_rate * ((holding_days : ℝ) / (tradingDays : ℝ))) / annual_vol)
      else (annual_vol, 0)
    else (0, 0)
  { buy_date := buy_date
    sell_date := sell_date
    holding_days := holding_days
    holding_return := holding_return
    annual_return := annual_return
    annual_volatility := vol_sharpe.1
    max_drawdown := max_drawdown
    sharpe := vol_sharpe.2
    days_held := days_held }

/-- `HoldingSimulation.simulate_holding_period`: empty when the series is
shorter than the required point count, otherwise one row per start index
`i` in `range(len(nav_series) - holding_days)`. -/
noncomputable def simulate_holding_period (risk_free_rate : ℝ)
    (tradingDays : ℕ) (nav : List (ℤ × ℝ))
    (holding_days : ℕ) (min_data_points : ℕ) : List SimRow :=
  if nav.length < requiredPoints holding_days min_data_points then []
  else (List.range (nav.length - holding_days)).map
    (simRow risk_free_rate tradingDays nav holding_days)

section Composite

variable {α : Type} [LinearOrderedField α]

/-- One entry of a composite-index component list, as stored in
`config.COMPOSITE_INDICES[...]['components']`: the dict may lack a
`base_code`, and carries a numeric weight. -/
structure CompEntry (α : Type) where
  base_code : Option String
  weight : α

/-- `config.normalize_index_code`: strip the common exchange suffixes. -/
def normalize_index_code (code : String) : String :=
  if code.endsWith ".SH" then code.dropRight 3
  else if code.endsWith ".SZ" then code.dropRight 3
  else if code.endsWith ".HK" then code.dropRight 3
  else if code.endsWith ".OF" then code.dropRight 3
  else if code.endsWith ".SS" then code.dropRight 3
  else if code.endsWith ".XSHE" then code.dropRight 5
  else code

/-- `_resolve_index_id` in `performance.py`: legacy identifier aliases,
then `config.normalize_index_code`. -/
def resolve_index_id (code : String) : String :=
  if code = "INDEX_SSE" then "000001"
  else if code = "INDEX_HS300" then "000300"
  else if code = "INDEX_HSI" then "HSI"
  else if code = "INDEX_MED_INNOV" then "MED_INNOV"
  else normalize_index_code code

/-- The per-component screening of
`PerformanceAnalyzer._build_composite_nav_from_db`: a component is
skipped when its `base_code` is missing or empty, its weight is 0, or its
return series (`close.pct_change().dropna()`, via the database map `db`)
is empty; otherwise it survives with its resolved code, raw weight, and
return series. -/
def usableSeries (db : String → List (ℤ × α)) (c : CompEntry α) :
    Option (String × α × List (ℤ × α)) :=
  match c.base_code with
  | none => none
  | some code0 =>
    if code0 = "" then none
    else
      let code := resolve_index_id code0
      if c.weight = 0 then none
      else
        match pctChange (db code) with
        | [] => none
        | r :: rs => some (code, c.weight, r :: rs)

/-- Value of an inner-joined column at a date: the first value the series
holds at that date, 0 when absent (the join guarantees presence). -/
def valueAt (s : List (ℤ × α)) (d : ℤ) : α :=
  match s with
  | [] => 0
  | p :: ps => if p.1 = d then p.2 else valueAt ps d

/-- The surviving dates of the incremental inner join of
`_build_composite_nav_from_db`: the first usable component's return dates
that every later usable component also has. -/
def joinDates (first : String × α × List (ℤ × α))
    (rest : List (String × α × List (ℤ × α))) : List ℤ :=
  (first.2.2.map Prod.fst).filter
    (fun d => rest.all (fun u => (u.2.2.map Prod.fst).contains d))

/-- `PerformanceAnalyzer._build_composite_nav_from_db`: keep the usable
components, inner-join their return series on dates, blend the joined
returns with the components' raw weights, and rebuild the composite value
series as the cumulative product of one plus the blended return.  Empty
when no component is usable or the join has no common date. -/
def build_composite_nav (db : String → List (ℤ × α))
    (components : List (CompEntry α)) : List (ℤ × α) :=
  match components.filterMap (usableSeries db) with
  | [] => []
  | first :: rest =>
    let weighted_returns := (joinDates first rest).map
      (fun d => (d, ((first :: rest).map (fun u => u.2.1 * valueAt u.2.2 d)).sum))
    match weighted_returns with
    | [] => []
    | q :: qs => cumprodFrom 1 (q :: qs)

/-- Modelled from the spec (section 4.2 step 4), for comparison with the
source's `build_composite_nav`: identical synthesis except that the
surviving components' weights are first normalized to sum to 1. -/
def build_composite_nav_spec (db : String → List (ℤ × α))
    (components : List (CompEntry α)) : List (ℤ × α) :=
  match components.filterMap (usableSeries db) with
  | [] => []
  | first :: rest =>
    let total_weight := ((first :: rest).map (fun u => u.2.1)).sum
    let weighted_returns := (joinDates first rest).map
      (fun d => (d, ((first :: rest).map
        (fun u => u.2.1 / total_weight * valueAt u.2.2 d)).sum))
    match weighted_returns with
    | [] => []
    | q :: qs => cumprodFrom 1 (q :: qs)

end Composite

section SortLemmas

variable {α : Type} [LinearOrderedField α]

theorem insertByDate_of_le (p : ℤ × α) (l : List (ℤ × α))
    (h : ∀ q ∈ l, p.1 ≤ q.1) : insertByDate p l = p :: l := by
  cases l with
  | nil => rfl
  | cons q qs => simp [insertByDate, h q (by simp)]

theorem sortByDate_eq_self (l : List (ℤ × α))
    (h : List.Pairwise (fun p q : ℤ × α => p.1 ≤ q.1) l) : sortByDate l = l := by
  induction l with
  | nil => rfl
  | cons p ps ih =>
    have h1 := List.pairwise_cons.mp h
    have h2 : sortByDate (p :: ps) = insertByDate p (sortByDate ps) := rfl
    rw [h2, ih h1.2, insertByDate_of_le p ps h1.1]

theorem pairwise_le_of_chain_lt (nav : List (ℤ × α))
    (h : List.Chain' (· < ·) (nav.map Prod.fst)) :
    List.Pairwise (fun p q : ℤ × α => p.1 ≤ q.1) nav := by
  have h1 := List.chain'_iff_pairwise.mp h
  rw [List.pairwise_map] at h1
  exact h1.imp le_of_lt

end SortLemmas

/-- Claim C8: on every value series and frequency, the ratios
short-circuit to 0 on a degenerate denominator instead of raising —
`calculate_sharpe_ratio` is 0 whenever the annual volatility is 0, and
`calculate_calmar_ratio` is 0 whenever the max drawdown is 0. -/
theorem claim_C8 (risk_free_rate : ℝ) (tradingDays : ℕ)
    (nav : List (ℤ × ℝ)) (frequency : String) :
    (calculate_annual_volatility tradingDays nav frequency = 0 →
      calculate_sharpe risk_free_rate tradingDays nav frequency = 0)
    ∧ ((calculate_max_drawdown nav).1 = 0 →
      calculate_calmar tradingDays nav frequency = 0) := by
  constructor
  · intro h
    simp [calculate_sharpe, h]
  · intro h
    simp [calculate_calmar, h]

/-- Witness for C8 at the constant series `[(0,1),(1,1)]`, whose weekly
volatility and max drawdown are both 0. -/
theorem claim_C8_witness :
    calculate_sharpe 0.02 252 [((0 : ℤ), (1 : ℝ)), (1, 1)] "daily" = 0
    ∧ calculate_calmar 252 [((0 : ℤ), (1 : ℝ)), (1, 1)] "daily" = 0 := by
  have h := claim_C8 0.02 252 [((0 : ℤ), (1 : ℝ)), (1, 1)] "daily"
  refine ⟨h.1 ?_, h.2 ?_⟩
  · simp [calculate_annual_volatility, pctChange]
  · simp [calculate_max_drawdown, cummax, cummaxFrom, idxminP, idxmaxP, pctChange]

/-- Claim C9: resampling at the daily frequency is the identity on a
series with unique ascending dates whatever the method; an empty input
yields an empty output at every frequency; and under `cum_return` at a
non-daily frequency an empty compounded period-return series yields an
empty output — never an error. -/
theorem claim_C9 {α : Type} [LinearOrderedField α] (bin : ℤ → ℤ)
    (nav : List (ℤ × α)) (frequency method : String) :
    (List.Chain' (· < ·) (nav.map Prod.fst) →
      resample_data bin nav "daily" method = nav)
    ∧ (nav = [] → resample_data bin nav frequency method = [])
    ∧ (frequency ≠ "daily" →
        periodReturns bin (pctChange (sortByDate nav)) = [] →
        resample_data bin nav frequency "cum_return" = []) := by
  refine ⟨?_, ?_, ?_⟩
  · intro h
    cases nav with
    | nil => rfl
    | cons p ps =>
      have hs : sortByDate (p :: ps) = p :: ps :=
        sortByDate_eq_self _ (pairwise_le_of_chain_lt _ h)
      simp [resample_data, hs]
  · intro h
    subst h
    rfl
  · intro hfreq hper
    cases nav with
    | nil => rfl
    | cons p ps =>
      simp only [resample_data, if_neg hfreq, if_pos rfl]
      cases hc : pctChange (sortByDate (p :: ps)) with
      | nil => rfl
      | cons r rs =>
        rw [hc] at hper
        simp [hper]

section DrawdownLemmas

variable {α : Type} [LinearOrderedField α]

theorem cummaxFrom_of_chain :
    ∀ (c : α) (vs : List α), List.Chain (· ≤ ·) c vs → cummaxFrom c vs = c :: vs := by
  intro c vs
  induction vs generalizing c with
  | nil => intro _; rfl
  | cons v vs ih =>
    intro h
    cases h with
    | cons hcv hrest =>
      simp only [cummaxFrom]
      rw [max_eq_right hcv, ih v hrest]

theorem zipWith_dd_self (l : List (ℤ × α)) :
    List.zipWith (fun p m => (p.1, (p.2 - m) / m)) l (l.map Prod.snd)
      = l.map (fun q => (q.1, (0 : α))) := by
  induction l with
  | nil => rfl
  | cons p ps ih => simp [ih]

theorem foldl_min_zero (ps : List (ℤ × α)) :
    ∀ init : ℤ × α, init.2 = 0 →
      ((ps.map (fun q => (q.1, (0 : α)))).foldl
        (fun best q => if q.2 < best.2 then q else best) init) = init := by
  induction ps with
  | nil => intro init _; rfl
  | cons q qs ih =>
    intro init h0
    simp only [List.map_cons, List.foldl_cons]
    rw [if_neg (by simp [h0])]
    exact ih init h0

end DrawdownLemmas

/-- On a series of at least 2 points with unique ascending dates and
non-decreasing values, the drawdown series is identically 0 and both
argmin and restricted argmax land on the first point. -/
theorem maxDrawdown_of_monotone {α : Type} [LinearOrderedField α]
    (nav : List (ℤ × α))
    (hlen : 2 ≤ nav.length)
    (hdates : List.Chain' (· < ·) (nav.map Prod.fst))
    (hmono : List.Chain' (· ≤ ·) (nav.map Prod.snd)) :
    calculate_max_drawdown nav = (0, some (firstDate nav), some (firstDate nav)) := by
  cases nav with
  | nil => simp at hlen
  | cons p ps =>
    simp only [calculate_max_drawdown, if_neg (not_lt.mpr hlen)]
    have hcm : cummax ((p :: ps).map Prod.snd) = (p :: ps).map Prod.snd := by
      simp only [List.map_cons, cummax]
      exact cummaxFrom_of_chain _ _ hmono
    rw [hcm, zipWith_dd_self]
    have hmin : idxminP ((p :: ps).map (fun q => (q.1, (0 : α)))) = some (p.1, 0) := by
      simp only [List.map_cons, idxminP]
      rw [foldl_min_zero ps (p.1, 0) rfl]
    rw [hmin]
    have hlt : ∀ q ∈ ps, p.1 < q.1 := by
      have h1 := List.chain'_iff_pairwise.mp hdates
      rw [List.map_cons, List.pairwise_cons] at h1
      intro q hq
      exact h1.1 q.1 (List.mem_map_of_mem Prod.fst hq)
    have hfil : (p :: ps).filter (fun q => q.1 ≤ (p.1, (0 : α)).1) = [p] := by
      rw [List.filter_cons]
      rw [List.filter_eq_nil_iff.mpr (fun q hq => by simp [not_le.mpr (hlt q hq)])]
      simp
    simp only [hfil, idxmaxP, List.foldl_nil, firstDate]

/-- Counterexample for C4: on the monotone series
`S = [1.0, 1.1, 1.21]` of §8 Scenario A, `calculate_max_drawdown` does
not return null drawdown dates. -/
theorem claim_C4_counterexample :
    calculate_max_drawdown [((0 : ℤ), (1 : ℚ)), (1, 11/10), (2, 121/100)]
      ≠ ((0 : ℚ), (none : Option ℤ), (none : Option ℤ)) := by
  rw [maxDrawdown_of_monotone _ (by decide) (by norm_num [List.chain'_cons])
    (by norm_num [List.chain'_cons])]
  simp [firstDate]

/-- Claim C4, amended: on every series of at least 2 points with unique
ascending dates that never falls below its running maximum (values
non-decreasing), `calculate_max_drawdown` returns a max drawdown of 0,
but with the drawdown start and end dates both equal to the series' first
date rather than null. -/
theorem claim_C4_amended (nav : List (ℤ × ℚ))
    (hlen : 2 ≤ nav.length)
    (hdates : List.Chain' (· < ·) (nav.map Prod.fst))
    (hmono : List.Chain' (· ≤ ·) (nav.map Prod.snd)) :
    calculate_max_drawdown nav = (0, some (firstDate nav), some (firstDate nav)) :=
  maxDrawdown_of_monotone nav hlen hdates hmono

/-- Witness for the amended C4 at Scenario A's series. -/
theorem claim_C4_witness :
    calculate_max_drawdown [((0 : ℤ), (1 : ℚ)), (1, 11/10), (2, 121/100)]
      = (0, some 0, some 0) :=
  claim_C4_amended _ (by decide) (by norm_num [List.chain'_cons])
    (by norm_num [List.chain'_cons])

/-- Witness for C9: the daily identity on a two-point rational series,
and the empty result of weekly `cum_return` resampling of a one-point
series (whose return series, hence compounded period-return series, is
empty). -/
theorem claim_C9_witness :
    resample_data id [((0 : ℤ), (1 : ℚ)), (1, 2)] "daily" "last"
      = [((0 : ℤ), (1 : ℚ)), (1, 2)]
    ∧ resample_data id [((5 : ℤ), (3 : ℚ))] "weekly" "cum_return" = [] := by
  constructor
  · exact (claim_C9 id [((0 : ℤ), (1 : ℚ)), (1, 2)] "weekly" "last").1
      (by norm_num [List.chain'_cons])
  · exact (claim_C9 id [((5 : ℤ), (3 : ℚ))] "weekly" "cum_return").2.2
      (by decide) (by decide)

/-- Counterexample for C3: on the daily series `[(day 0, 1.0), (day 730,
4.0)]` the code annualizes with elapsed days over 365.0 (giving exactly
`4^(1/2) - 1 = 1`), not over 365.25 as the claim states. -/
theorem claim_C3_counterexample :
    calculate_annual_return 252 [((0 : ℤ), (1 : ℝ)), (730, 4)] "daily"
      ≠ (1 + calculate_total_return [((0 : ℤ), (1 : ℝ)), (730, 4)])
          ^ ((1 : ℝ) / ((730 : ℝ) / 365.25)) - 1 := by
  have htr : calculate_total_return [((0 : ℤ), (1 : ℝ)), (730, 4)] = 3 := by
    norm_num [calculate_total_return, lastV, firstV]
  have hL : calculate_annual_return 252 [((0 : ℤ), (1 : ℝ)), (730, 4)] "daily"
      = (4 : ℝ) ^ ((1 : ℝ) / 2) - 1 := by
    simp only [calculate_annual_return, htr, lastDate, firstDate]
    norm_num
  have hlt : (4 : ℝ) ^ ((1 : ℝ) / 2) < (4 : ℝ) ^ ((1 : ℝ) / ((730 : ℝ) / 365.25)) :=
    (Real.rpow_lt_rpow_left_iff (by norm_num)).mpr (by norm_num)
  rw [hL, htr, show (1 : ℝ) + 3 = 4 by norm_num]
  exact ne_of_lt (by linarith)

/-- Claim C3, amended: for at least 2 points and positive elapsed days,
`calculate_annual_return` equals `(1+total_return)^(1/years) - 1` where
at the daily frequency `years` is elapsed calendar days over 365.0 (not
365.25), and at every other frequency `years` is `(period_count - 1)`
over that frequency's annualization factor (52/12/4/1); it returns 0 when
the series has fewer than 2 points or the elapsed days (hence the year
count) are not positive. -/
theorem claim_C3_amended (tradingDays : ℕ) (nav : List (ℤ × ℝ))
    (frequency : String) :
    (2 ≤ nav.length → 0 < lastDate nav - firstDate nav →
      calculate_annual_return tradingDays nav "daily"
        = (1 + calculate_total_return nav)
            ^ ((365 : ℝ) / ((lastDate nav - firstDate nav : ℤ) : ℝ)) - 1)
    ∧ (2 ≤ nav.length → frequency ≠ "daily" →
        0 < lastDate nav - firstDate nav →
        0 < FREQUENCY_TRADING_DAYS frequency tradingDays →
        calculate_annual_return tradingDays nav frequency
          = (1 + calculate_total_return nav)
              ^ ((FREQUENCY_TRADING_DAYS frequency tradingDays : ℝ)
                  / ((nav.length : ℝ) - 1)) - 1)
    ∧ (nav.length < 2 → calculate_annual_return tradingDays nav frequency = 0)
    ∧ (lastDate nav - firstDate nav ≤ 0 →
        calculate_annual_return tradingDays nav frequency = 0) := by
  refine ⟨?_, ?_, ?_, ?_⟩
  · intro hlen hdays
    have hd : (0 : ℝ) < ((lastDate nav - firstDate nav : ℤ) : ℝ) := by
      exact_mod_cast hdays
    simp only [calculate_annual_return, if_neg (not_lt.mpr hlen),
      if_neg (not_le.mpr hdays), eq_self_iff_true, if_true]
    rw [if_neg (not_le.mpr (div_pos hd (by norm_num))), one_div_div]
  · intro hlen hfreq hdays hfac
    have hn : (0 : ℝ) < (nav.length : ℝ) - 1 := by
      have h2 : (2 : ℝ) ≤ (nav.length : ℝ) := by exact_mod_cast hlen
      linarith
    have hf : (0 : ℝ) < (FREQUENCY_TRADING_DAYS frequency tradingDays : ℝ) := by
      exact_mod_cast hfac
    simp only [calculate_annual_return, if_neg (not_lt.mpr hlen),
      if_neg (not_le.mpr hdays), if_neg hfreq]
    rw [if_neg (not_le.mpr (div_pos hn hf)), one_div_div]
  · intro hlen
    simp only [calculate_annual_return, if_pos hlen]
  · intro hdays
    simp only [calculate_annual_return]
    by_cases h1 : nav.length < 2
    · rw [if_pos h1]
    · rw [if_neg h1, if_pos hdays]

/-- Witness for the amended C3: the daily and weekly formulas at the
two-point series `[(0,1),(365,2)]`, plus a degenerate zero case. -/
theorem claim_C3_witness :
    calculate_annual_return 252 [((0 : ℤ), (1 : ℝ)), (365, 2)] "daily"
      = (1 + calculate_total_return [((0 : ℤ), (1 : ℝ)), (365, 2)])
          ^ ((365 : ℝ) / ((lastDate [((0 : ℤ), (1 : ℝ)), (365, 2)]
              - firstDate [((0 : ℤ), (1 : ℝ)), (365, 2)] : ℤ) : ℝ)) - 1
    ∧ calculate_annual_return 252 [((0 : ℤ), (1 : ℝ)), (365, 2)] "weekly"
      = (1 + calculate_total_return [((0 : ℤ), (1 : ℝ)), (365, 2)])
          ^ ((FREQUENCY_TRADING_DAYS "weekly" 252 : ℝ)
              / (((List.length [((0 : ℤ), (1 : ℝ)), (365, 2)] : ℕ) : ℝ) - 1)) - 1
    ∧ calculate_annual_return 252 [((3 : ℤ), (1 : ℝ))] "daily" = 0 := by
  have h := claim_C3_amended 252 [((0 : ℤ), (1 : ℝ)), (365, 2)] "weekly"
  exact ⟨h.1 (by decide) (by decide),
    h.2.1 (by decide) (by decide) (by decide) (by decide),
    (claim_C3_amended 252 [((3 : ℤ), (1 : ℝ))] "daily").2.2.1 (by decide)⟩

section WindowLemmas

variable {α : Type} [LinearOrderedField α]

theorem drop_take_cons (l : List (ℤ × α)) (i k : ℕ) (h : i < l.length) :
    (l.drop i).take (k + 1) = l.get ⟨i, h⟩ :: ((l.drop (i + 1)).take k) := by
  rw [List.drop_eq_getElem_cons h]
  rfl

theorem lastV_cons_of_ne (p : ℤ × α) (xs : List (ℤ × α)) (h : xs ≠ []) :
    lastV (p :: xs) = lastV xs := by
  cases xs with
  | nil => exact absurd rfl h
  | cons q rest => rfl

theorem firstV_window (l : List (ℤ × α)) (i k : ℕ) (h : i < l.length) :
    firstV ((l.drop i).take (k + 1)) = (l.getD i (0, 0)).2 := by
  rw [drop_take_cons l i k h, List.getD_eq_getElem l (0, 0) h]
  rfl

theorem lastV_window (l : List (ℤ × α)) :
    ∀ (k i : ℕ), i + k < l.length →
      lastV ((l.drop i).take (k + 1)) = (l.getD (i + k) (0, 0)).2 := by
  intro k
  induction k with
  | zero =>
    intro i h
    rw [drop_take_cons l i 0 (by omega), List.take_zero,
      List.getD_eq_getElem l (0, 0) (by omega : i + 0 < l.length)]
    rfl
  | succ k ih =>
    intro i h
    have hne : (l.drop (i + 1)).take (k + 1) ≠ [] := by
      intro hcon
      have hlen := congrArg List.length hcon
      simp only [List.length_take, List.length_drop, List.length_nil] at hlen
      omega
    rw [drop_take_cons l i (k + 1) (by omega), lastV_cons_of_ne _ _ hne,
      show i + (k + 1) = i + 1 + k from by omega]
    exact ih (i + 1) (by omega)

end WindowLemmas

/-- Counterexample for C1: a 12-point series with holding length 5 fails
the `holding_days + 10` data gate, so `simulate_holding_period` returns 0
rows, not `max(0, len - L) = 7` as the claim asserts universally. -/
theorem claim_C1_counterexample :
    (simulate_holding_period 0.02 252
        [((0 : ℤ), (1 : ℝ)), (1, 1), (2, 1), (3, 1), (4, 1), (5, 1),
          (6, 1), (7, 1), (8, 1), (9, 1), (10, 1), (11, 1)] 5 10).length
      ≠ max 0 (List.length
          [((0 : ℤ), (1 : ℝ)), (1, 1), (2, 1), (3, 1), (4, 1), (5, 1),
            (6, 1), (7, 1), (8, 1), (9, 1), (10, 1), (11, 1)] - 5) := by
  simp [simulate_holding_period, requiredPoints]

/-- Claim C1, amended: `simulate_holding_period` returns an empty result
(not an exception) whenever the series is shorter than
`holding_days + min_data_points` points (buffer default 10, relaxed to 5
when the holding length is 360, the longest configured one) — in
particular whenever `L ≥ len(S)`; when the gate passes it returns exactly
`len(S) - L` rows, full enumeration of overlapping windows, with row i's
holding return equal to `S[i+L]/S[i] - 1`. -/
theorem claim_C1_amended (risk_free_rate : ℝ) (tradingDays : ℕ)
    (nav : List (ℤ × ℝ)) (holding_days min_data_points : ℕ) :
    (nav.length < requiredPoints holding_days min_data_points →
      simulate_holding_period risk_free_rate tradingDays nav
        holding_days min_data_points = [])
    ∧ (requiredPoints holding_days min_data_points ≤ nav.length →
        (simulate_holding_period risk_free_rate tradingDays nav
            holding_days min_data_points).length = nav.length - holding_days
        ∧ ∀ i, i < nav.length - holding_days →
            Option.map SimRow.holding_return
              ((simulate_holding_period risk_free_rate tradingDays nav
                  holding_days min_data_points)[i]?)
              = some ((nav.getD (i + holding_days) (0, 0)).2
                  / (nav.getD i (0, 0)).2 - 1)) := by
  constructor
  · intro h
    rw [simulate_holding_period, if_pos h]
  · intro h
    have hguard : ¬ nav.length < requiredPoints holding_days min_data_points :=
      not_lt.mpr h
    constructor
    · rw [simulate_holding_period, if_neg hguard]
      simp
    · intro i hi
      rw [simulate_holding_period, if_neg hguard]
      rw [List.getElem?_map, List.getElem?_range hi]
      simp only [Option.map_some']
      congr 1
      have hiL : i + holding_days < nav.length := by
        have h5 : holding_days ≤ requiredPoints holding_days min_data_points := by
          unfold requiredPoints
          split_ifs <;> omega
        omega
      simp only [simRow]
      rw [firstV_window nav i holding_days (by omega),
        lastV_window nav holding_days i hiL]

/-- Witness for the amended C1: a 4-point series with holding length 2
and buffer 1 passes the gate, yielding exactly 2 rows whose first holding
return is `S[2]/S[0] - 1 = 3`. -/
theorem claim_C1_witness :
    (simulate_holding_period 0.02 252
        [((0 : ℤ), (1 : ℝ)), (1, 2), (2, 4), (3, 8)] 2 1).length = 4 - 2
    ∧ Option.map SimRow.holding_return
        ((simulate_holding_period 0.02 252
            [((0 : ℤ), (1 : ℝ)), (1, 2), (2, 4), (3, 8)] 2 1)[0]?)
        = some ((4 : ℝ) / 1 - 1) := by
  have h := (claim_C1_amended 0.02 252
    [((0 : ℤ), (1 : ℝ)), (1, 2), (2, 4), (3, 8)] 2 1).2 (by decide)
  refine ⟨h.1, ?_⟩
  have h0 := h.2 0 (by decide)
  simpa using h0

/-- Counterexample for C7: at each of the three malformed-configuration
inputs the code returns a default, empty, or degenerate-zero result
instead of raising — the unrecognized frequency tag `hourly` silently
falls back to the daily rule `D`; a composite spec whose only component
has weight 0 yields an empty series; and a zero (non-positive) holding
length is simulated normally, producing one zero-day row per point. -/
theorem claim_C7_counterexample :
    get_resample_rule "hourly" "FRI" "ME" 12 12 [] = "D"
    ∧ build_composite_nav (fun _ => ([] : List (ℤ × ℚ)))
        [⟨some "X", (0 : ℚ)⟩] = []
    ∧ (simulate_holding_period 0.02 252
        [((0 : ℤ), (1 : ℝ)), (1, 1), (2, 1), (3, 1), (4, 1), (5, 1),
          (6, 1), (7, 1), (8, 1), (9, 1)] 0 10).length = 10 := by
  refine ⟨rfl, rfl, ?_⟩
  simp [simulate_holding_period, requiredPoints]

/-- Claim C7, amended: malformed configuration is absorbed rather than
raised as a typed error — an unrecognized frequency tag (with no explicit
rule mapping) falls back to the daily resample rule `D`; a composite spec
with no usable component yields an empty series; and a non-positive
(zero) holding length passes through the simulator, which returns one row
per point, each with zero days held. -/
theorem claim_C7_amended (frequency week_end_day month_end_rule : String)
    (quarter_end_month year_end_month : ℤ)
    (db : String → List (ℤ × ℚ)) (components : List (CompEntry ℚ))
    (risk_free_rate : ℝ) (tradingDays : ℕ) (nav : List (ℤ × ℝ)) (m : ℕ) :
    (frequency ∉ ["weekly", "monthly", "quarterly", "yearly"] →
      get_resample_rule frequency week_end_day month_end_rule
        quarter_end_month year_end_month [] = "D")
    ∧ ((∀ c ∈ components, usableSeries db c = none) →
        build_composite_nav db components = [])
    ∧ (m ≤ nav.length →
        (simulate_holding_period risk_free_rate tradingDays nav 0 m).map
            SimRow.days_held
          = List.replicate nav.length 0) := by
  refine ⟨?_, ?_, ?_⟩
  · intro h
    simp only [List.mem_cons, not_or, List.not_mem_nil, not_false_iff,
      and_true] at h
    obtain ⟨h1, h2, h3, h4⟩ := h
    simp [get_resample_rule, List.lookup, h1, h2, h3, h4]
  · intro h
    have hu : components.filterMap (usableSeries db) = [] :=
      List.filterMap_eq_nil_iff.mpr h
    simp [build_composite_nav, hu]
  · intro h
    have hreq : requiredPoints 0 m = m := by simp [requiredPoints]
    rw [simulate_holding_period,
      if_neg (not_lt.mpr (by rw [hreq]; exact h)), List.map_map]
    apply List.eq_replicate_iff.mpr
    refine ⟨by simp, ?_⟩
    intro b hb
    simp only [List.mem_map, List.mem_range, Function.comp] at hb
    obtain ⟨i, _, rfl⟩ := hb
    simp [simRow]

/-- Witness for the amended C7: the fallback rule for the tag `biweekly`,
the empty composite for a component list whose entry lacks a base code,
and the all-zero days-held column for holding length 0 on a 2-point
series. -/
theorem claim_C7_witness :
    get_resample_rule "biweekly" "MON" "ME" 12 12 [] = "D"
    ∧ build_composite_nav (fun _ => ([] : List (ℤ × ℚ)))
        [⟨none, (3 : ℚ)⟩] = []
    ∧ (simulate_holding_period 0.02 252 [((0 : ℤ), (1 : ℝ)), (1, 2)] 0 2).map
        SimRow.days_held = List.replicate 2 0 := by
  have h := claim_C7_amended "biweekly" "MON" "ME" 12 12
    (fun _ => ([] : List (ℤ × ℚ))) [⟨none, (3 : ℚ)⟩]
    0.02 252 [((0 : ℤ), (1 : ℝ)), (1, 2)] 2
  exact ⟨h.1 (by decide), h.2.1 (by decide), h.2.2 (by decide)⟩

section CumprodLemmas

variable {α : Type} [LinearOrderedField α]

theorem cumprodFrom_length (l : List (ℤ × α)) :
    ∀ acc : α, (cumprodFrom acc l).length = l.length := by
  induction l with
  | nil => intro acc; rfl
  | cons p ps ih =>
    intro acc
    simp only [cumprodFrom, List.length_cons, ih]

theorem cumprodFrom_getElem (l : List (ℤ × α)) :
    ∀ (k : ℕ) (acc : α), k < l.length →
      (cumprodFrom acc l)[k]?
        = some ((l.getD k (0, 0)).1,
            acc * ((l.take (k + 1)).map (fun p => 1 + p.2)).prod) := by
  induction l with
  | nil => intro k acc h; simp at h
  | cons p ps ih =>
    intro k acc h
    cases k with
    | zero =>
      simp [cumprodFrom]
    | succ k =>
      have hk : k < ps.length := by simpa using h
      simp only [cumprodFrom, List.getElem?_cons_succ, List.getD_cons_succ,
        List.take_succ_cons, List.map_cons, List.prod_cons]
      rw [ih k (acc * (1 + p.2)) hk]
      congr 2
      ring

/-- Closed form of `build_composite_nav` when at least one component
survives: one point per join date, the k-th value being the cumulative
product of one plus the raw-weight blend. -/
theorem build_composite_closed (db : String → List (ℤ × α))
    (components : List (CompEntry α))
    (first : String × α × List (ℤ × α))
    (rest : List (String × α × List (ℤ × α)))
    (heq : components.filterMap (usableSeries db) = first :: rest) :
    (build_composite_nav db components).length = (joinDates first rest).length
    ∧ ∀ k, k < (joinDates first rest).length →
        (build_composite_nav db components)[k]?
          = some ((joinDates first rest).getD k 0,
              (((joinDates first rest).take (k + 1)).map
                (fun d => 1 + ((first :: rest).map
                  (fun u => u.2.1 * valueAt u.2.2 d)).sum)).prod) := by
  have hb : build_composite_nav db components
      = cumprodFrom 1 ((joinDates first rest).map
          (fun x => (x, ((first :: rest).map
            (fun u => u.2.1 * valueAt u.2.2 x)).sum))) := by
    rw [build_composite_nav, heq]
    show (match (joinDates first rest).map
        (fun d => (d, ((first :: rest).map
          (fun u => u.2.1 * valueAt u.2.2 d)).sum)) with
      | [] => ([] : List (ℤ × α))
      | q :: qs => cumprodFrom 1 (q :: qs)) = _
    cases (joinDates first rest).map
        (fun d => (d, ((first :: rest).map
          (fun u => u.2.1 * valueAt u.2.2 d)).sum)) with
    | nil => rfl
    | cons q qs => rfl
  rw [hb]
  constructor
  · rw [cumprodFrom_length, List.length_map]
  · intro k hk
    have hk2 : k < ((joinDates first rest).map
        (fun x => (x, ((first :: rest).map
          (fun u => u.2.1 * valueAt u.2.2 x)).sum))).length := by
      rw [List.length_map]; exact hk
    rw [cumprodFrom_getElem _ k 1 hk2]
    congr 2
    · rw [List.getD_eq_getElem _ _ hk2, List.getElem_map,
        List.getD_eq_getElem _ _ hk]
    · rw [one_mul, ← List.map_take, List.map_map]
      rfl

/-- Closed form of the spec-modelled `build_composite_nav_spec`: the same
shape, with the blend using weights normalized by their sum. -/
theorem build_composite_spec_closed (db : String → List (ℤ × α))
    (components : List (CompEntry α))
    (first : String × α × List (ℤ × α))
    (rest : List (String × α × List (ℤ × α)))
    (heq : components.filterMap (usableSeries db) = first :: rest) :
    (build_composite_nav_spec db components).length = (joinDates first rest).length
    ∧ ∀ k, k < (joinDates first rest).length →
        (build_composite_nav_spec db components)[k]?
          = some ((joinDates first rest).getD k 0,
              (((joinDates first rest).take (k + 1)).map
                (fun d => 1 + ((first :: rest).map
                  (fun u => u.2.1 / (((first :: rest).map
                    (fun v => v.2.1)).sum) * valueAt u.2.2 d)).sum)).prod) := by
  have hb : build_composite_nav_spec db components
      = cumprodFrom 1 ((joinDates first rest).map
          (fun x => (x, ((first :: rest).map
            (fun u => u.2.1 / (((first :: rest).map
              (fun v => v.2.1)).sum) * valueAt u.2.2 x)).sum))) := by
    rw [build_composite_nav_spec, heq]
    show (match (joinDates first rest).map
        (fun d => (d, ((first :: rest).map
          (fun u => u.2.1 / (((first :: rest).map
            (fun v => v.2.1)).sum) * valueAt u.2.2 d)).sum)) with
      | [] => ([] : List (ℤ × α))
      | q :: qs => cumprodFrom 1 (q :: qs)) = _
    cases (joinDates first rest).map
        (fun d => (d, ((first :: rest).map
          (fun u => u.2.1 / (((first :: rest).map
            (fun v => v.2.1)).sum) * valueAt u.2.2 d)).sum)) with
    | nil => rfl
    | cons q qs => rfl
  rw [hb]
  constructor
  · rw [cumprodFrom_length, List.length_map]
  · intro k hk
    have hk2 : k < ((joinDates first rest).map
        (fun x => (x, ((first :: rest).map
          (fun u => u.2.1 / (((first :: rest).map
            (fun v => v.2.1)).sum) * valueAt u.2.2 x)).sum))).length := by
      rw [List.length_map]; exact hk
    rw [cumprodFrom_getElem _ k 1 hk2]
    congr 2
    · rw [List.getD_eq_getElem _ _ hk2, List.getElem_map,
        List.getD_eq_getElem _ _ hk]
    · rw [one_mul, ← List.map_take, List.map_map]
      rfl

end CumprodLemmas

/-- Counterexample for C2: a composite spec whose single surviving
component has weight 2, over a component whose sole return is 1.0 (close
doubles from 1 to 2).  The code blends with the raw weight, producing the
composite `[(1, 3)]` (`1 + 2·1`), while the claim's normalized formula
(weight 2/2 = 1) produces `[(1, 2)]`. -/
theorem claim_C2_counterexample :
    build_composite_nav
        (fun c => if c = "A" then [((0 : ℤ), (1 : ℚ)), (1, 2)] else [])
        [⟨some "A", (2 : ℚ)⟩]
      = [((1 : ℤ), (3 : ℚ))]
    ∧ build_composite_nav_spec
        (fun c => if c = "A" then [((0 : ℤ), (1 : ℚ)), (1, 2)] else [])
        [⟨some "A", (2 : ℚ)⟩]
      = [((1 : ℤ), (2 : ℚ))] := by
  have heq : List.filterMap
      (usableSeries (fun c => if c = "A" then [((0 : ℤ), (1 : ℚ)), (1, 2)] else []))
      [⟨some "A", (2 : ℚ)⟩]
      = [("A", (2 : ℚ), [((1 : ℤ), (2 : ℚ) / 1 - 1)])] := rfl
  constructor
  · have h := build_composite_closed _ _ _ _ heq
    have hlen : (build_composite_nav
        (fun c => if c = "A" then [((0 : ℤ), (1 : ℚ)), (1, 2)] else [])
        [⟨some "A", (2 : ℚ)⟩]).length = 1 := by rw [h.1]; rfl
    obtain ⟨a, ha⟩ := List.length_eq_one.mp hlen
    have h0 := h.2 0 (by decide)
    rw [ha, List.getElem?_cons_zero] at h0
    have ha3 : a = ((1 : ℤ), (3 : ℚ)) := by
      rw [Option.some.inj h0]
      norm_num [joinDates, valueAt]
    rw [ha, ha3]
  · have h := build_composite_spec_closed _ _ _ _ heq
    have hlen : (build_composite_nav_spec
        (fun c => if c = "A" then [((0 : ℤ), (1 : ℚ)), (1, 2)] else [])
        [⟨some "A", (2 : ℚ)⟩]).length = 1 := by rw [h.1]; rfl
    obtain ⟨a, ha⟩ := List.length_eq_one.mp hlen
    have h0 := h.2 0 (by decide)
    rw [ha, List.getElem?_cons_zero] at h0
    have ha2 : a = ((1 : ℤ), (2 : ℚ)) := by
      rw [Option.some.inj h0]
      norm_num [joinDates, valueAt]
    rw [ha, ha2]

/-- Claim C2, amended: whenever at least one component survives the
usability screening, the composite series has one point per surviving
inner-join date, and its k-th value is the cumulative product
`∏_{j ≤ k} (1 + Σ_i w_i · r_i(d_j))` over the surviving dates, where the
`w_i` are the surviving components' raw weights — they are NOT first
normalized to sum to 1. -/
theorem claim_C2_amended (db : String → List (ℤ × ℚ))
    (components : List (CompEntry ℚ))
    (first : String × ℚ × List (ℤ × ℚ))
    (rest : List (String × ℚ × List (ℤ × ℚ)))
    (heq : components.filterMap (usableSeries db) = first :: rest) :
    (build_composite_nav db components).length = (joinDates first rest).length
    ∧ ∀ k, k < (joinDates first rest).length →
        (build_composite_nav db components)[k]?
          = some ((joinDates first rest).getD k 0,
              (((joinDates first rest).take (k + 1)).map
                (fun d => 1 + ((first :: rest).map
                  (fun u => u.2.1 * valueAt u.2.2 d)).sum)).prod) :=
  build_composite_closed db components first rest heq

/-- Witness for the amended C2: two surviving components with raw weights
1 and 1 (sum 2); the blended returns are `1+1 = 2` and `1+3 = 4`, so the
composite is `[(1, 3), (2, 15)]` — the unnormalized cumulative product. -/
theorem claim_C2_witness :
    (build_composite_nav
        (fun c => if c = "A" then [((0 : ℤ), (1 : ℚ)), (1, 2), (2, 4)]
          else if c = "B" then [((0 : ℤ), (1 : ℚ)), (1, 2), (2, 8)] else [])
        [⟨some "A", (1 : ℚ)⟩, ⟨some "B", (1 : ℚ)⟩]).length = 2
    ∧ Option.map Prod.snd ((build_composite_nav
        (fun c => if c = "A" then [((0 : ℤ), (1 : ℚ)), (1, 2), (2, 4)]
          else if c = "B" then [((0 : ℤ), (1 : ℚ)), (1, 2), (2, 8)] else [])
        [⟨some "A", (1 : ℚ)⟩, ⟨some "B", (1 : ℚ)⟩])[1]?)
      = some (15 : ℚ) := by
  have heq : List.filterMap
      (usableSeries (fun c => if c = "A" then [((0 : ℤ), (1 : ℚ)), (1, 2), (2, 4)]
        else if c = "B" then [((0 : ℤ), (1 : ℚ)), (1, 2), (2, 8)] else []))
      [⟨some "A", (1 : ℚ)⟩, ⟨some "B", (1 : ℚ)⟩]
      = [("A", (1 : ℚ), [((1 : ℤ), (2 : ℚ) / 1 - 1), (2, 4 / 2 - 1)]),
         ("B", (1 : ℚ), [((1 : ℤ), (2 : ℚ) / 1 - 1), (2, 8 / 2 - 1)])] := rfl
  have h := claim_C2_amended _ _ _ _ heq
  constructor
  · rw [h.1]
    norm_num [joinDates]
  · rw [h.2 1 (by norm_num [joinDates])]
    norm_num [joinDates, valueAt]

section WindowLemmas2

variable {α : Type} [LinearOrderedField α]

theorem window_getD (l : List (ℤ × α)) (i k : ℕ) (h : i + k < l.length) :
    ((l.drop i).take (k + 1)).getD k (0, 0) = l.getD (i + k) (0, 0) := by
  have h1 : k < ((l.drop i).take (k + 1)).length := by
    simp only [List.length_take, List.length_drop]
    omega
  rw [List.getD_eq_getElem _ _ h1, List.getD_eq_getElem _ _ h,
    List.getElem_take, List.getElem_drop]

theorem getD_map_fst (l : List (ℤ × α)) (i : ℕ) (h : i < l.length) :
    (l.map Prod.fst).getD i 0 = (l.getD i (0, 0)).1 := by
  have h1 : i < (l.map Prod.fst).length := by
    rw [List.length_map]; exact h
  rw [List.getD_eq_getElem _ _ h1, List.getD_eq_getElem _ _ h, List.getElem_map]

end WindowLemmas2

/-- Claim C6: each simulation row's annualized return is computed from
the actual elapsed calendar days between the entry and exit dates —
`days_held` is the date difference, and the annualized return equals
`(1 + holding_return)^(252/days_held) - 1` when `days_held > 0` and 0
otherwise; and the remaining per-window statistics depend only on the
window slice: two series agreeing on the window (and containing it)
produce identical rows. -/
theorem claim_C6 (risk_free_rate : ℝ) (nav nav1 nav2 : List (ℤ × ℝ))
    (holding_days min_data_points i : ℕ) :
    (requiredPoints holding_days min_data_points ≤ nav.length →
      i < nav.length - holding_days →
      (simulate_holding_period risk_free_rate 252 nav
          holding_days min_data_points)[i]?
        = some (simRow risk_free_rate 252 nav holding_days i))
    ∧ ((simRow risk_free_rate 252 nav holding_days i).days_held
        = (nav.map Prod.fst).getD (i + holding_days) 0
          - (nav.map Prod.fst).getD i 0)
    ∧ (0 < (simRow risk_free_rate 252 nav holding_days i).days_held →
        (simRow risk_free_rate 252 nav holding_days i).annual_return
          = (1 + (simRow risk_free_rate 252 nav holding_days i).holding_return)
              ^ (((252 : ℕ) : ℝ)
                / (((simRow risk_free_rate 252 nav holding_days i).days_held : ℤ) : ℝ))
            - 1)
    ∧ ((simRow risk_free_rate 252 nav holding_days i).days_held ≤ 0 →
        (simRow risk_free_rate 252 nav holding_days i).annual_return = 0)
    ∧ ((nav1.drop i).take (holding_days + 1)
          = (nav2.drop i).take (holding_days + 1) →
        i + holding_days < nav1.length → i + holding_days < nav2.length →
        simRow risk_free_rate 252 nav1 holding_days i
          = simRow risk_free_rate 252 nav2 holding_days i) := by
  refine ⟨?_, rfl, ?_, ?_, ?_⟩
  · intro hreq hi
    rw [simulate_holding_period, if_neg (not_lt.mpr hreq),
      List.getElem?_map, List.getElem?_range hi, Option.map_some']
  · intro h
    simp only [simRow] at h ⊢
    rw [if_pos h]
  · intro h
    simp only [simRow] at h ⊢
    rw [if_neg (not_lt.mpr h)]
  · intro hw h1 h2
    have h1i : i < nav1.length := by omega
    have h2i : i < nav2.length := by omega
    have hbuy : nav1.getD i (0, 0) = nav2.getD i (0, 0) := by
      have e := hw
      rw [drop_take_cons nav1 i holding_days h1i,
        drop_take_cons nav2 i holding_days h2i] at e
      rw [List.getD_eq_getElem _ _ h1i, List.getD_eq_getElem _ _ h2i]
      exact (List.cons.injEq _ _ _ _ ▸ e).1
    have hsell : nav1.getD (i + holding_days) (0, 0)
        = nav2.getD (i + holding_days) (0, 0) := by
      rw [← window_getD nav1 i holding_days h1,
        ← window_getD nav2 i holding_days h2, hw]
    have hbuyd : (nav1.map Prod.fst).getD i 0
        = (nav2.map Prod.fst).getD i 0 := by
      rw [getD_map_fst nav1 i h1i, getD_map_fst nav2 i h2i, hbuy]
    have hselld : (nav1.map Prod.fst).getD (i + holding_days) 0
        = (nav2.map Prod.fst).getD (i + holding_days) 0 := by
      rw [getD_map_fst nav1 _ h1, getD_map_fst nav2 _ h2, hsell]
    simp only [simRow]
    rw [hw, hbuyd, hselld]

/-- Witness for C6 on the series `[(0,1),(3,2),(7,1),(9,5)]` with holding
length 2: row 0 spans 7 actual calendar days, its annualized return uses
`252/7`, and a series differing only outside the window produces the same
row. -/
theorem claim_C6_witness :
    (simulate_holding_period 0.02 252
        [((0 : ℤ), (1 : ℝ)), (3, 2), (7, 1), (9, 5)] 2 2)[0]?
      = some (simRow 0.02 252 [((0 : ℤ), (1 : ℝ)), (3, 2), (7, 1), (9, 5)] 2 0)
    ∧ (simRow 0.02 252 [((0 : ℤ), (1 : ℝ)), (3, 2), (7, 1), (9, 5)] 2 0).annual_return
      = (1 + (simRow 0.02 252
            [((0 : ℤ), (1 : ℝ)), (3, 2), (7, 1), (9, 5)] 2 0).holding_return)
          ^ (((252 : ℕ) : ℝ)
            / (((simRow 0.02 252
                [((0 : ℤ), (1 : ℝ)), (3, 2), (7, 1), (9, 5)] 2 0).days_held : ℤ) : ℝ))
        - 1
    ∧ simRow 0.02 252 [((0 : ℤ), (1 : ℝ)), (3, 2), (7, 1), (9, 5)] 2 0
      = simRow 0.02 252 [((0 : ℤ), (1 : ℝ)), (3, 2), (7, 1), (100, 77)] 2 0 := by
  have h := claim_C6 0.02 [((0 : ℤ), (1 : ℝ)), (3, 2), (7, 1), (9, 5)]
    [((0 : ℤ), (1 : ℝ)), (3, 2), (7, 1), (9, 5)]
    [((0 : ℤ), (1 : ℝ)), (3, 2), (7, 1), (100, 77)] 2 2 0
  exact ⟨h.1 (by decide) (by decide), h.2.2.1 (by decide),
    h.2.2.2.2 rfl (by decide) (by decide)⟩

/-- Claim C10: the per-window sharpe of `simulate_holding_period`
subtracts the risk-free rate prorated by the holding length —
`(annualized_return - rf · holding_days/252) / annualized_volatility` —
while `calculate_sharpe_ratio` subtracts the full annual rate
`(annual_return - rf) / annual_volatility`; with the same numerator
inputs and a non-zero volatility the two formulas disagree whenever
`holding_days ≠ 252` and `rf ≠ 0`. -/
theorem claim_C10 (risk_free_rate : ℝ) (nav : List (ℤ × ℝ))
    (holding_days i : ℕ) (frequency : String) (A V : ℝ) :
    (1 < ((pctChange ((nav.drop i).take (holding_days + 1))).map Prod.snd).length →
      0 < Real.sqrt (sampleVar
            ((pctChange ((nav.drop i).take (holding_days + 1))).map Prod.snd))
          * Real.sqrt ((252 : ℕ) : ℝ) →
      (simRow risk_free_rate 252 nav holding_days i).sharpe
        = ((simRow risk_free_rate 252 nav holding_days i).annual_return
            - risk_free_rate * ((holding_days : ℝ) / ((252 : ℕ) : ℝ)))
          / (simRow risk_free_rate 252 nav holding_days i).annual_volatility)
    ∧ (2 ≤ nav.length →
        calculate_annual_volatility 252 nav frequency ≠ 0 →
        calculate_sharpe risk_free_rate 252 nav frequency
          = (calculate_annual_return 252 nav frequency - risk_free_rate)
            / calculate_annual_volatility 252 nav frequency)
    ∧ (V ≠ 0 → risk_free_rate ≠ 0 → (holding_days : ℝ) ≠ 252 →
        (A - risk_free_rate * ((holding_days : ℝ) / 252)) / V
          ≠ (A - risk_free_rate) / V) := by
  refine ⟨?_, ?_, ?_⟩
  · intro hlen hpos
    simp only [simRow]
    rw [if_pos hlen, if_pos hpos]
  · intro hlen hvol
    simp only [calculate_sharpe]
    rw [if_neg (not_lt.mpr hlen), if_neg hvol]
  · intro hV hrf hd heqq
    rw [div_eq_div_iff hV hV] at heqq
    have h1 : A - risk_free_rate * ((holding_days : ℝ) / 252)
        = A - risk_free_rate := mul_right_cancel₀ hV heqq
    have h3 : risk_free_rate * ((holding_days : ℝ) / 252)
        = risk_free_rate * 1 := by
      rw [mul_one]; linarith
    have h4 : (holding_days : ℝ) / 252 = 1 := mul_left_cancel₀ hrf h3
    have h5 : (holding_days : ℝ) = 252 := by
      field_simp at h4
      exact h4
    exact hd h5

/-- Witness for C10 on the window `[(0,1),(1,2),(2,1)]` (returns 1 and
-1/2, sample variance 9/8 > 0): the simulator's sharpe uses the prorated
rate, the calculator's uses the full rate, and at `A = 0, V = 1,
rf = 0.02, L = 2` the two formulas differ. -/
theorem claim_C10_witness :
    (simRow 0.02 252 [((0 : ℤ), (1 : ℝ)), (1, 2), (2, 1)] 2 0).sharpe
      = ((simRow 0.02 252 [((0 : ℤ), (1 : ℝ)), (1, 2), (2, 1)] 2 0).annual_return
          - 0.02 * (((2 : ℕ) : ℝ) / ((252 : ℕ) : ℝ)))
        / (simRow 0.02 252 [((0 : ℤ), (1 : ℝ)), (1, 2), (2, 1)] 2 0).annual_volatility
    ∧ calculate_sharpe 0.02 252 [((0 : ℤ), (1 : ℝ)), (1, 2), (2, 1)] "daily"
      = (calculate_annual_return 252 [((0 : ℤ), (1 : ℝ)), (1, 2), (2, 1)] "daily"
          - 0.02)
        / calculate_annual_volatility 252 [((0 : ℤ), (1 : ℝ)), (1, 2), (2, 1)] "daily"
    ∧ ((0 : ℝ) - 0.02 * (((2 : ℕ) : ℝ) / 252)) / 1 ≠ ((0 : ℝ) - 0.02) / 1 := by
  have hvar : sampleVar ((pctChange
      (([((0 : ℤ), (1 : ℝ)), (1, 2), (2, 1)].drop 0).take (2 + 1))).map Prod.snd)
      = 9 / 8 := by
    norm_num [sampleVar, mean, pctChange]
  have h := claim_C10 0.02 [((0 : ℤ), (1 : ℝ)), (1, 2), (2, 1)] 2 0 "daily" 0 1
  refine ⟨h.1 (by decide) ?_, ?_, h.2.2 one_ne_zero (by norm_num) (by norm_num)⟩
  · exact mul_pos (Real.sqrt_pos.mpr (by rw [hvar]; norm_num))
      (Real.sqrt_pos.mpr (by norm_num))
  · refine h.2.1 (by decide) ?_
    have hret : (pctChange [((0 : ℤ), (1 : ℝ)), (1, 2), (2, 1)]).map Prod.snd
        = [(2 : ℝ) / 1 - 1, 1 / 2 - 1] := rfl
    have hv2 : sampleVar [(2 : ℝ) / 1 - 1, 1 / 2 - 1] = 9 / 8 := by
      norm_num [sampleVar, mean]
    simp only [calculate_annual_volatility, hret]
    rw [if_neg (by norm_num), if_neg (by norm_num), hv2]
    exact ne_of_gt (mul_pos (Real.sqrt_pos.mpr (by norm_num))
      (Real.sqrt_pos.mpr (by norm_num [FREQUENCY_TRADING_DAYS])))

/-- Claim C5: when no single frequency is forced, the analyzer resamples
the series independently at the return frequency (default daily) and at
the risk frequency (default weekly), and merges one record in which the
return-class fields (total and annual return, plus the date range and
sample count) come from the return-frequency computation and the
risk-class fields (volatility, max drawdown with its dates, sharpe,
calmar) come from the risk-frequency computation. -/
theorem claim_C5 (risk_free_rate : ℝ) (tradingDays : ℕ)
    (bins : String → ℤ → ℤ) (nav : List (ℤ × ℝ))
    (return_frequency risk_frequency : String)
    (hlen : 2 ≤ nav.length)
    (hr : 2 ≤ (resample_data (bins return_frequency) nav
        return_frequency "last").length)
    (hk : 2 ≤ (resample_data (bins risk_frequency) nav
        risk_frequency "last").length) :
    DEFAULT_RETURN_FREQUENCY = "daily" ∧ DEFAULT_RISK_FREQUENCY = "weekly"
    ∧ analyze_fund_performance_mixed risk_free_rate tradingDays bins nav
        return_frequency risk_frequency
      = some
        { return_frequency := return_frequency
          risk_frequency := risk_frequency
          total_return := calculate_total_return
            (resample_data (bins return_frequency) nav return_frequency "last")
          annual_return := calculate_annual_return tradingDays
            (resample_data (bins return_frequency) nav return_frequency "last")
            return_frequency
          annual_volatility := calculate_annual_volatility tradingDays
            (resample_data (bins risk_frequency) nav risk_frequency "last")
            risk_frequency
          max_drawdown := (calculate_max_drawdown
            (resample_data (bins risk_frequency) nav risk_frequency "last")).1
          max_drawdown_start := (calculate_max_drawdown
            (resample_data (bins risk_frequency) nav risk_frequency "last")).2.1
          max_drawdown_end := (calculate_max_drawdown
            (resample_data (bins risk_frequency) nav risk_frequency "last")).2.2
          sharpe := calculate_sharpe risk_free_rate tradingDays
            (resample_data (bins risk_frequency) nav risk_frequency "last")
            risk_frequency
          calmar := calculate_calmar tradingDays
            (resample_data (bins risk_frequency) nav risk_frequency "last")
            risk_frequency
          start_date := firstDate
            (resample_data (bins return_frequency) nav return_frequency "last")
          end_date := lastDate
            (resample_data (bins return_frequency) nav return_frequency "last")
          periods := (resample_data (bins return_frequency) nav
            return_frequency "last").length } := by
  refine ⟨rfl, rfl, ?_⟩
  rw [analyze_fund_performance_mixed, if_neg (not_lt.mpr hlen)]
  simp only [calculate_metrics_for_frequency]
  rw [if_neg (not_lt.mpr hr), if_neg (not_lt.mpr hk)]

/-- Witness for C5 on a three-point series with identity period labels:
both the daily and the (degenerate one-point-per-bin) weekly resamples
keep at least 2 points and the merged record is produced. -/
theorem claim_C5_witness :
    analyze_fund_performance_mixed 0.02 252 (fun _ d => d)
      [((0 : ℤ), (1 : ℝ)), (1, 2), (2, 4)] "daily" "weekly"
      = some
        { return_frequency := "daily"
          risk_frequency := "weekly"
          total_return := calculate_total_return
            (resample_data ((fun (_ : String) (d : ℤ) => d) "daily")
              [((0 : ℤ), (1 : ℝ)), (1, 2), (2, 4)] "daily" "last")
          annual_return := calculate_annual_return 252
            (resample_data ((fun (_ : String) (d : ℤ) => d) "daily")
              [((0 : ℤ), (1 : ℝ)), (1, 2), (2, 4)] "daily" "last") "daily"
          annual_volatility := calculate_annual_volatility 252
            (resample_data ((fun (_ : String) (d : ℤ) => d) "weekly")
              [((0 : ℤ), (1 : ℝ)), (1, 2), (2, 4)] "weekly" "last") "weekly"
          max_drawdown := (calculate_max_drawdown
            (resample_data ((fun (_ : String) (d : ℤ) => d) "weekly")
              [((0 : ℤ), (1 : ℝ)), (1, 2), (2, 4)] "weekly" "last")).1
          max_drawdown_start := (calculate_max_drawdown
            (resample_data ((fun (_ : String) (d : ℤ) => d) "weekly")
              [((0 : ℤ), (1 : ℝ)), (1, 2), (2, 4)] "weekly" "last")).2.1
          max_drawdown_end := (calculate_max_drawdown
            (resample_data ((fun (_ : String) (d : ℤ) => d) "weekly")
              [((0 : ℤ), (1 : ℝ)), (1, 2), (2, 4)] "weekly" "last")).2.2
          sharpe := calculate_sharpe 0.02 252
            (resample_data ((fun (_ : String) (d : ℤ) => d) "weekly")
              [((0 : ℤ), (1 : ℝ)), (1, 2), (2, 4)] "weekly" "last") "weekly"
          calmar := calculate_calmar 252
            (resample_data ((fun (_ : String) (d : ℤ) => d) "weekly")
              [((0 : ℤ), (1 : ℝ)), (1, 2), (2, 4)] "weekly" "last") "weekly"
          start_date := firstDate
            (resample_data ((fun (_ : String) (d : ℤ) => d) "daily")
              [((0 : ℤ), (1 : ℝ)), (1, 2), (2, 4)] "daily" "last")
          end_date := lastDate
            (resample_data ((fun (_ : String) (d : ℤ) => d) "daily")
              [((0 : ℤ), (1 : ℝ)), (1, 2), (2, 4)] "daily" "last")
          periods := (resample_data ((fun (_ : String) (d : ℤ) => d) "daily")
            [((0 : ℤ), (1 : ℝ)), (1, 2), (2, 4)] "daily" "last").length } :=
  (claim_C5 0.02 252 (fun _ d => d) [((0 : ℤ), (1 : ℝ)), (1, 2), (2, 4)]
    "daily" "weekly" (by decide) (by decide) (by decide)).2.2

end FundSpec
